import Mathlib

/-!
Verification development for the `line-following-pid` telemetry visualizer
(`src/robot_code/main.py`).  The program parses a header-labelled delimited
telemetry log into six parallel numeric sequences and renders plots; the
definitions below are a shallow embedding of its loader, derived statistics,
heading conversion, dark-surface classification and arrow-index sampling.
Python floats are modelled by exact numbers (ℚ for parsed values, ℝ where
square roots and π are involved); machine-level floating point rounding is
not modelled.
-/

namespace RobotPath

/-! ## Derived statistics (main.py lines 124-129, inside plot_robot_path) -/

/-- Model of `np.diff`: successive differences `l[i+1] - l[i]`. -/
noncomputable def npDiff : List ℝ → List ℝ
  | a :: b :: rest => (b - a) :: npDiff (b :: rest)
  | _ => []

/-- Model of `np.sqrt(dx ** 2 + dy ** 2)` applied elementwise to the
difference arrays (main.py line 126). -/
noncomputable def segmentLengths (x y : List ℝ) : List ℝ :=
  List.zipWith (fun dx dy => Real.sqrt (dx ^ 2 + dy ^ 2)) (npDiff x) (npDiff y)

/-- `total_distance = np.sum(distances)` (main.py line 127). -/
noncomputable def total_distance (x y : List ℝ) : ℝ :=
  (segmentLengths x y).sum

/-- `total_time = (data['time'][-1] - data['time'][0]) / 1000.0`
(main.py line 128).  Python indexing `[-1]`/`[0]` requires a nonempty
array (it raises `IndexError` otherwise); the defaults are only ever
exercised under a nonemptiness hypothesis. -/
noncomputable def total_time (time : List ℝ) : ℝ :=
  (time.getLastD 0 - time.headD 0) / 1000

/-- `avg_speed = total_distance / total_time if total_time > 0 else 0`
(main.py line 129). -/
noncomputable def avg_speed (x y time : List ℝ) : ℝ :=
  if total_time time > 0 then total_distance x y / total_time time else 0

/-! ## Heading conversion (main.py lines 48, 97, 176) -/

/-- Model of `np.deg2rad`. -/
noncomputable def deg2rad (d : ℝ) : ℝ :=
  d * Real.pi / 180

/-- `theta_rad = np.deg2rad(data['theta'][i] / 100.0)` (main.py lines 48
and 176): the stored centidegree heading converted to radians for the
arrow trigonometry. -/
noncomputable def theta_rad (theta : ℝ) : ℝ :=
  deg2rad (theta / 100)

/-- `data['theta'] / 100.0` (main.py line 97): the heading in degrees as
displayed on the orientation-vs-time panel. -/
noncomputable def theta_degrees (theta : ℝ) : ℝ :=
  theta / 100

/-- Arrow displacement `dx = L * np.cos(theta_rad)` (main.py lines 49, 177;
`L` is the cosmetic length 3 or 4). -/
noncomputable def arrow_dx (L theta : ℝ) : ℝ :=
  L * Real.cos (theta_rad theta)

/-- Arrow displacement `dy = L * np.sin(theta_rad)` (main.py lines 50, 178). -/
noncomputable def arrow_dy (L theta : ℝ) : ℝ :=
  L * Real.sin (theta_rad theta)

/-! ## Dark-surface classification (main.py lines 75-83) -/

/-- `dark_threshold = 45` (main.py line 76). -/
def dark_threshold : ℤ := 45

/-- The samples selected by the boolean mask `data['light'] < dark_threshold`:
position values paired with their light reading, keeping exactly those pairs
whose light value is strictly below the threshold (main.py lines 77-78). -/
def darkSamples (pos : List ℚ) (light : List ℤ) : List (ℚ × ℤ) :=
  (pos.zip light).filter (fun p => p.2 < dark_threshold)

/-- `dark_points_x = data['x'][data['light'] < dark_threshold]`
(main.py line 77). -/
def darkPointsX (x : List ℚ) (light : List ℤ) : List ℚ :=
  (darkSamples x light).map Prod.fst

/-- `dark_points_y = data['y'][data['light'] < dark_threshold]`
(main.py line 78). -/
def darkPointsY (y : List ℚ) (light : List ℤ) : List ℚ :=
  (darkSamples y light).map Prod.fst

/-- The highlight drawn by panel 3: `if len(dark_points_x) > 0:` a scatter
of the dark points is drawn, otherwise nothing (main.py lines 81-83). -/
def darkHighlight (x y : List ℚ) (light : List ℤ) : Option (List ℚ × List ℚ) :=
  if 0 < (darkPointsX x light).length then
    some (darkPointsX x light, darkPointsY y light)
  else
    none

/-! ## Telemetry loader (main.py lines 10-35, read_path_data)

The file is modelled at the row level: a header (list of column names) and
data rows (lists of field strings), i.e. the table `csv.DictReader` exposes.
`csv.DictReader` turns each data row into a dict by zipping the header with
the row: a row shorter than the header gets `None` for the missing fields,
extra fields land under the `None` rest-key and are invisible to named
lookups, and a duplicated header name keeps the last occurrence. -/

/-- The errors `read_path_data` can raise: `FileNotFoundError` from `open`,
`KeyError` from `row[col]` when the header lacks `col`, `TypeError` from
`float(None)`/`int(None)` when the row is shorter than the header, and
`ValueError` from `float(s)`/`int(s)` on a malformed numeric literal. -/
inductive LoadError where
  | notFound : LoadError
  | keyError : String → LoadError
  | typeError : LoadError
  | valueError : String → LoadError
deriving DecidableEq

/-- The dict `csv.DictReader` builds for one data row: header names zipped
with the row fields, short rows padded with `None` (modelled as `none`). -/
def dictOfRow (header row : List String) : List (String × Option String) :=
  header.zip (row.map some ++ List.replicate (header.length - row.length) none)

/-- `row[key]` on the row dict.  Outer `none` models `KeyError` (the key is
not a column of the header); `some none` is a present key whose value is
`None` (short row).  Later duplicate header columns overwrite earlier ones,
hence the lookup on the reversed association list. -/
def rowLookup (header row : List String) (key : String) : Option (Option String) :=
  (dictOfRow header row).reverse.lookup key

/-- Numeric value of a digit string (most significant first). -/
def digitsToNat (cs : List Char) : ℕ :=
  cs.foldl (fun a c => 10 * a + (c.toNat - 48)) 0

/-- Model of Python `float(s)` on the unsigned part of a plain decimal
literal: digits with an optional fractional part (at least one digit in
total).  Exotic float syntax (exponents, `inf`, `nan`, underscores) is not
modelled; the telemetry format only uses plain decimals. -/
def parseUnsignedFloat (cs : List Char) : Option ℚ :=
  match cs.span Char.isDigit with
  | (intDs, []) =>
      if intDs.isEmpty then none else some (digitsToNat intDs : ℚ)
  | (intDs, c :: fracDs) =>
      if c = '.' ∧ fracDs.all Char.isDigit ∧ ¬(intDs.isEmpty ∧ fracDs.isEmpty) then
        some ((digitsToNat intDs : ℚ) + (digitsToNat fracDs : ℚ) / (10 : ℚ) ^ fracDs.length)
      else none

/-- The whitespace stripping `float`/`int` apply to their argument,
on the character list. -/
def stripChars (cs : List Char) : List Char :=
  ((cs.dropWhile Char.isWhitespace).reverse.dropWhile Char.isWhitespace).reverse

/-- Model of Python `float(s)`: optional sign before the unsigned literal,
surrounding whitespace stripped. -/
def parseFloat (s : String) : Option ℚ :=
  match stripChars s.toList with
  | '-' :: rest => (parseUnsignedFloat rest).map Neg.neg
  | '+' :: rest => parseUnsignedFloat rest
  | cs => parseUnsignedFloat cs

/-- Unsigned part of Python `int(s)`: a nonempty digit string. -/
def parseUnsignedInt (cs : List Char) : Option ℤ :=
  if ¬cs.isEmpty ∧ cs.all Char.isDigit then some (digitsToNat cs : ℤ) else none

/-- Model of Python `int(s)`: optional sign before a nonempty digit string,
surrounding whitespace stripped. -/
def parseInt (s : String) : Option ℤ :=
  match stripChars s.toList with
  | '-' :: rest => (parseUnsignedInt rest).map Neg.neg
  | '+' :: rest => parseUnsignedInt rest
  | cs => parseUnsignedInt cs

/-- `float(row[key])`: `KeyError` when the column is absent, `TypeError` on
the `None` padding of a short row, `ValueError` on a malformed literal. -/
def getFloatField (header row : List String) (key : String) : Except LoadError ℚ :=
  match rowLookup header row key with
  | none => Except.error (LoadError.keyError key)
  | some none => Except.error LoadError.typeError
  | some (some s) =>
      match parseFloat s with
      | none => Except.error (LoadError.valueError s)
      | some q => Except.ok q

/-- `int(row[key])`, same error cases as `getFloatField`. -/
def getIntField (header row : List String) (key : String) : Except LoadError ℤ :=
  match rowLookup header row key with
  | none => Except.error (LoadError.keyError key)
  | some none => Except.error LoadError.typeError
  | some (some s) =>
      match parseInt s with
      | none => Except.error (LoadError.valueError s)
      | some n => Except.ok n

/-- The six numeric values one loop iteration appends (main.py lines 21-26). -/
structure RowVals where
  time : ℚ
  x : ℚ
  y : ℚ
  theta : ℚ
  light : ℤ
  distance : ℤ
deriving DecidableEq

/-- One iteration of the loader loop: the six field accesses in program
order (`Time`, `X`, `Y`, `Theta`, `Light`, `Dist`); the first failing access
aborts the iteration (main.py lines 20-26). -/
def parseRow (header row : List String) : Except LoadError RowVals := do
  let t ← getFloatField header row "Time"
  let xv ← getFloatField header row "X"
  let yv ← getFloatField header row "Y"
  let th ← getFloatField header row "Theta"
  let li ← getIntField header row "Light"
  let di ← getIntField header row "Dist"
  Except.ok ⟨t, xv, yv, th, li, di⟩

/-- The six parallel sequences `read_path_data` returns (main.py lines 28-35). -/
structure PathData where
  time : List ℚ
  x : List ℚ
  y : List ℚ
  theta : List ℚ
  light : List ℤ
  distance : List ℤ
deriving DecidableEq

/-- `read_path_data` on a file already split into header and rows: process
the rows in order, appending each row's six values to the six sequences;
the first exception propagates and discards the function-local lists, so a
failing load returns nothing (main.py lines 10-35). -/
def read_path_data (header : List String) : List (List String) → Except LoadError PathData
  | [] => Except.ok ⟨[], [], [], [], [], []⟩
  | r :: rs =>
      match parseRow header r with
      | Except.error e => Except.error e
      | Except.ok v =>
          match read_path_data header rs with
          | Except.error e => Except.error e
          | Except.ok d =>
              Except.ok ⟨v.time :: d.time, v.x :: d.x, v.y :: d.y,
                         v.theta :: d.theta, v.light :: d.light,
                         v.distance :: d.distance⟩

instance {e a : Type} [DecidableEq e] [DecidableEq a] : DecidableEq (Except e a) := fun u v =>
  match u, v with
  | Except.error e1, Except.error e2 =>
      if h : e1 = e2 then isTrue (by rw [h]) else isFalse (by simp [h])
  | Except.error _, Except.ok _ => isFalse (by simp)
  | Except.ok _, Except.error _ => isFalse (by simp)
  | Except.ok a1, Except.ok a2 =>
      if h : a1 = a2 then isTrue (by rw [h]) else isFalse (by simp [h])

/-- A file on disk, already split into its header line and data rows. -/
structure CsvFile where
  header : List String
  rows : List (List String)

/-- `open(filename)` followed by `read_path_data`: a filesystem is a partial
map from names to file contents, and a missing name raises
`FileNotFoundError` (main.py line 18). -/
def loadPathData (fs : String → Option CsvFile) (filename : String) :
    Except LoadError PathData :=
  match fs filename with
  | none => Except.error LoadError.notFound
  | some f => read_path_data f.header f.rows

/-- The message printed by the `except FileNotFoundError` branch of `main`
(main.py line 227). -/
def notFoundMessage (filename : String) : String :=
  "Error: File " ++ filename ++ " not found!"

/-- How `main` ends.  Every constructor is a normal return: `main` wraps the
whole pipeline in `try/except`, catches `FileNotFoundError` separately from
every other exception, prints, and falls through (main.py lines 205-230). -/
inductive MainOutcome where
  | completed : MainOutcome
  | fileNotFound : String → MainOutcome
  | otherError : LoadError → MainOutcome
deriving DecidableEq

/-- The outcome of `main` for a given filesystem and filename, as far as the
load is concerned (rendering is an external collaborator and cannot raise in
this model). -/
def mainOutcome (fs : String → Option CsvFile) (filename : String) : MainOutcome :=
  match loadPathData fs filename with
  | Except.ok _ => MainOutcome.completed
  | Except.error LoadError.notFound => MainOutcome.fileNotFound (notFoundMessage filename)
  | Except.error e => MainOutcome.otherError e

/-! ## Arrow index sampling (main.py lines 46-47 and 174-175) -/

/-- Model of Python `range(0, n, step)` for `step ≥ 1`: the increasing list
of multiples of `step` strictly below `n`. -/
def pyRange (n step : ℕ) : List ℕ :=
  (List.range n).filter (fun i => i % step = 0)

/-- `skip = max(1, len(data['x']) // 15)` (main.py line 46). -/
def dashboardSkip (n : ℕ) : ℕ :=
  max 1 (n / 15)

/-- The arrow indices of the dashboard path panel:
`range(0, len(data['x']), skip)` with `skip = max(1, n // 15)`
(main.py line 47). -/
def dashboardArrowIndices (n : ℕ) : List ℕ :=
  pyRange n (dashboardSkip n)

/-- `skip = max(1, len(data['x']) // 10)` (main.py line 174). -/
def simpleSkip (n : ℕ) : ℕ :=
  max 1 (n / 10)

/-- The arrow indices of the simple-path renderer:
`range(0, len(data['x']), skip)` with `skip = max(1, n // 10)`
(main.py line 175). -/
def simpleArrowIndices (n : ℕ) : List ℕ :=
  pyRange n (simpleSkip n)

/-! ## Theorems -/

/-- The square root of 25 is 5, the length of the single nonzero segment of
the round-trip scenario. -/
theorem sqrt_twentyfive : Real.sqrt 25 = 5 := by
  rw [show (25 : ℝ) = 5 ^ 2 by norm_num]
  exact Real.sqrt_sq (by norm_num)

/-- C1: for the 3-row telemetry series (Time,X,Y,Theta,Light,Dist) =
(0,0,0,0,50,10), (1000,3,4,0,50,10), (2000,3,4,0,50,10), the derived
statistics are exactly: path length 5.0 (sum over consecutive pairs of
sqrt(dx^2+dy^2)), elapsed time 2.0 seconds ((time[last]-time[first])/1000),
and average speed 2.5 cm/s (path length divided by elapsed time). -/
theorem roundtrip_stats :
    total_distance [0, 3, 3] [0, 4, 4] = 5 ∧
    total_time [0, 1000, 2000] = 2 ∧
    avg_speed [0, 3, 3] [0, 4, 4] [0, 1000, 2000] = 5 / 2 := by
  have hd : total_distance [0, 3, 3] [0, 4, 4] = 5 := by
    simp [total_distance, segmentLengths, npDiff]
    norm_num
    exact sqrt_twentyfive
  have ht : total_time [0, 1000, 2000] = 2 := by
    simp [total_time]
    norm_num
  refine ⟨hd, ht, ?_⟩
  rw [avg_speed, ht, hd]
  norm_num

/-- C2: whenever the elapsed time ((time[last]-time[first])/1000) equals 0
the derived average speed is exactly 0 without any division being
performed, and whenever the elapsed time is positive the average speed is
the path length divided by the elapsed time. -/
theorem avg_speed_guard (x y time : List ℝ) :
    (total_time time = 0 → avg_speed x y time = 0) ∧
    (0 < total_time time → avg_speed x y time = total_distance x y / total_time time) := by
  constructor
  · intro h
    rw [avg_speed, h]
    norm_num
  · intro h
    rw [avg_speed, if_pos h]

/-- Witness for C2: a two-sample series with equal timestamps has average
speed 0, and the round-trip series has average speed path/time. -/
theorem avg_speed_guard_witness :
    avg_speed [0, 3] [0, 4] [500, 500] = 0 ∧
    avg_speed [0, 3] [0, 4] [0, 1000] = total_distance [0, 3] [0, 4] / total_time [0, 1000] := by
  constructor
  · exact (avg_speed_guard [0, 3] [0, 4] [500, 500]).1 (by simp [total_time])
  · refine (avg_speed_guard [0, 3] [0, 4] [0, 1000]).2 ?_
    simp [total_time]

/-- C4: the angle the program uses for angular computation or display is
the stored centidegree value divided by 100 (in degrees on the
orientation panel, further converted to radians for the arrow
trigonometry); in particular a stored heading of 9000 centidegrees is
drawn at 90 degrees, i.e. pi/2 radians. -/
theorem heading_conversion (t : ℝ) :
    theta_degrees t = t / 100 ∧
    theta_rad t = t / 100 * Real.pi / 180 ∧
    theta_degrees 9000 = 90 ∧
    theta_rad 9000 = Real.pi / 2 := by
  refine ⟨rfl, rfl, by norm_num [theta_degrees], ?_⟩
  rw [theta_rad, deg2rad]
  ring

/-- C5: panel 3 classifies a sample as dark exactly when its light value is
strictly below the fixed threshold 45; for light values [10, 50, 80]
exactly the sample with value 10 is selected; and an empty selection
draws no highlight (and is a normal, non-error outcome). -/
theorem dark_classification (x y : List ℚ) (light : List ℤ) (p : ℚ × ℤ)
    (hp : p ∈ x.zip light) :
    dark_threshold = 45 ∧
    (p ∈ darkSamples x light ↔ p.2 < 45) ∧
    (darkPointsX x light = [] → darkHighlight x y light = none) ∧
    darkSamples [0, 1, 2] [10, 50, 80] = [(0, 10)] := by
  refine ⟨rfl, ?_, ?_, by decide⟩
  · simp [darkSamples, List.mem_filter, hp, dark_threshold]
  · intro h
    rw [darkHighlight, h]
    simp

/-- Witness for C5: the sample (0, 10) of the series with light values
[10, 50, 80] is classified as dark because 10 < 45. -/
theorem dark_classification_witness :
    dark_threshold = 45 ∧
    (((0 : ℚ), (10 : ℤ)) ∈ darkSamples [0, 1, 2] [10, 50, 80] ↔ (10 : ℤ) < 45) ∧
    (darkPointsX [0, 1, 2] [10, 50, 80] = [] →
      darkHighlight [0, 1, 2] [3, 4, 5] [10, 50, 80] = none) ∧
    darkSamples [0, 1, 2] [10, 50, 80] = [(0, 10)] :=
  dark_classification [0, 1, 2] [3, 4, 5] [10, 50, 80] (0, 10) (by decide)

/-- C8 counterexample: for a 3-sample series the simple-path renderer draws
3 arrows (skip = max(1, 3 div 10) = 1 puts an arrow at every index), not
max(1, 3 div 10) = 1 arrows, so the arrow COUNT is not max(1, N/10). -/
theorem simple_arrow_count_refuted :
    (simpleArrowIndices 3).length = 3 ∧ (simpleArrowIndices 3).length ≠ max 1 (3 / 10) := by
  decide

/-- C8 (amended): the dashboard path panel draws arrows at the indices
0, s, 2s, ... below N for s = max(1, N div 15), and the simple-path
renderer draws arrows at the indices spaced at max(1, N div 10) — a
spacing, not a count, in both renderers. -/
theorem arrow_indices_spacing (n i : ℕ) :
    (i ∈ dashboardArrowIndices n ↔ i < n ∧ dashboardSkip n ∣ i) ∧
    (i ∈ simpleArrowIndices n ↔ i < n ∧ simpleSkip n ∣ i) := by
  constructor <;>
    simp [dashboardArrowIndices, simpleArrowIndices, pyRange, List.mem_filter,
      List.mem_range, Nat.dvd_iff_mod_eq_zero, and_comm]

/-- C10: a file that contains only a header and zero data rows loads
successfully into six empty sequences, for EVERY header — including one
missing required columns, since field lookup only happens while a data
row is processed. -/
theorem read_path_data_headeronly (header : List String) :
    read_path_data header [] = Except.ok ⟨[], [], [], [], [], []⟩ := rfl

/-! ### Loader lemmas -/

/-- A bind in `Except` that errors does so either in its first or its
second component. -/
theorem except_bind_error_source {e a b : Type} (m : Except e a) (f : a → Except e b) (x : e)
    (h : (m >>= f) = Except.error x) :
    m = Except.error x ∨ ∃ v, m = Except.ok v ∧ f v = Except.error x := by
  cases m with
  | error y =>
      left
      simp only [Bind.bind, Except.bind] at h
      rw [Except.error.inj h]
  | ok v =>
      right
      simp only [Bind.bind, Except.bind] at h
      exact ⟨v, rfl, h⟩

/-- A bind in `Except` that succeeds has a successful first component. -/
theorem except_bind_ok_source {e a b : Type} (m : Except e a) (f : a → Except e b) (x : b)
    (h : (m >>= f) = Except.ok x) :
    ∃ v, m = Except.ok v ∧ f v = Except.ok x := by
  cases m with
  | error y =>
      simp only [Bind.bind, Except.bind] at h
      exact absurd h (by simp)
  | ok v =>
      simp only [Bind.bind, Except.bind] at h
      exact ⟨v, rfl, h⟩

/-- A key outside the first components of an association list has no
binding. -/
theorem lookup_none_of_not_mem_fst (key : String) (l : List (String × Option String))
    (h : key ∉ l.map Prod.fst) : l.lookup key = none := by
  induction l with
  | nil => rfl
  | cons hd tl ih =>
      simp only [List.map_cons, List.mem_cons] at h
      push_neg at h
      have hbeq : (key == hd.1) = false := beq_eq_false_iff_ne.mpr h.1
      rw [List.lookup, hbeq]
      exact ih h.2

/-- A key that is not a column of the header is absent from the row dict:
`row[key]` raises `KeyError`. -/
theorem rowLookup_none_of_missing (header row : List String) (key : String)
    (h : key ∉ header) : rowLookup header row key = none := by
  apply lookup_none_of_not_mem_fst
  intro hmem
  apply h
  rw [List.map_reverse, List.mem_reverse] at hmem
  have hle : header.length ≤
      (row.map some ++ List.replicate (header.length - row.length) none).length := by
    simp
    omega
  rw [dictOfRow, List.map_fst_zip header _ hle] at hmem
  exact hmem

/-- Accessing a float field whose column the header lacks is a `KeyError`. -/
theorem getFloatField_missing (header row : List String) (key : String)
    (h : key ∉ header) :
    getFloatField header row key = Except.error (LoadError.keyError key) := by
  rw [getFloatField, rowLookup_none_of_missing header row key h]

/-- Accessing an int field whose column the header lacks is a `KeyError`. -/
theorem getIntField_missing (header row : List String) (key : String)
    (h : key ∉ header) :
    getIntField header row key = Except.error (LoadError.keyError key) := by
  rw [getIntField, rowLookup_none_of_missing header row key h]

/-- A float field access never raises `FileNotFoundError`. -/
theorem getFloatField_ne_notFound (header row : List String) (key : String) :
    getFloatField header row key ≠ Except.error LoadError.notFound := by
  rw [getFloatField]
  cases rowLookup header row key with
  | none => simp
  | some o =>
      cases o with
      | none => simp
      | some s =>
          cases hp : parseFloat s <;> simp [hp]

/-- An int field access never raises `FileNotFoundError`. -/
theorem getIntField_ne_notFound (header row : List String) (key : String) :
    getIntField header row key ≠ Except.error LoadError.notFound := by
  rw [getIntField]
  cases rowLookup header row key with
  | none => simp
  | some o =>
      cases o with
      | none => simp
      | some s =>
          cases hp : parseInt s <;> simp [hp]

/-- Processing one data row never raises `FileNotFoundError`. -/
theorem parseRow_ne_notFound (header row : List String) :
    parseRow header row ≠ Except.error LoadError.notFound := by
  intro h
  rw [parseRow] at h
  rcases except_bind_error_source _ _ _ h with h1 | ⟨t, ht, h⟩
  · exact getFloatField_ne_notFound header row "Time" h1
  rcases except_bind_error_source _ _ _ h with h1 | ⟨xv, hx, h⟩
  · exact getFloatField_ne_notFound header row "X" h1
  rcases except_bind_error_source _ _ _ h with h1 | ⟨yv, hy, h⟩
  · exact getFloatField_ne_notFound header row "Y" h1
  rcases except_bind_error_source _ _ _ h with h1 | ⟨th, hth, h⟩
  · exact getFloatField_ne_notFound header row "Theta" h1
  rcases except_bind_error_source _ _ _ h with h1 | ⟨li, hli, h⟩
  · exact getIntField_ne_notFound header row "Light" h1
  rcases except_bind_error_source _ _ _ h with h1 | ⟨di, hdi, h⟩
  · exact getIntField_ne_notFound header row "Dist" h1
  exact absurd h (by simp)

/-- A successfully processed row had all six field accesses succeed. -/
theorem parseRow_ok_getters (header row : List String) (v : RowVals)
    (h : parseRow header row = Except.ok v) :
    (∃ q, getFloatField header row "Time" = Except.ok q) ∧
    (∃ q, getFloatField header row "X" = Except.ok q) ∧
    (∃ q, getFloatField header row "Y" = Except.ok q) ∧
    (∃ q, getFloatField header row "Theta" = Except.ok q) ∧
    (∃ n, getIntField header row "Light" = Except.ok n) ∧
    (∃ n, getIntField header row "Dist" = Except.ok n) := by
  rw [parseRow] at h
  obtain ⟨t, ht, h⟩ := except_bind_ok_source _ _ _ h
  obtain ⟨xv, hx, h⟩ := except_bind_ok_source _ _ _ h
  obtain ⟨yv, hy, h⟩ := except_bind_ok_source _ _ _ h
  obtain ⟨th, hth, h⟩ := except_bind_ok_source _ _ _ h
  obtain ⟨li, hli, h⟩ := except_bind_ok_source _ _ _ h
  obtain ⟨di, hdi, h⟩ := except_bind_ok_source _ _ _ h
  exact ⟨⟨t, ht⟩, ⟨xv, hx⟩, ⟨yv, hy⟩, ⟨th, hth⟩, ⟨li, hli⟩, ⟨di, hdi⟩⟩

/-- Processing any data row under a header that lacks one of the six
required columns raises an exception. -/
theorem parseRow_error_of_missing (header row : List String) (k : String)
    (hk : k ∈ ["Time", "X", "Y", "Theta", "Light", "Dist"]) (hmem : k ∉ header) :
    ∃ err, parseRow header row = Except.error err := by
  cases hq : parseRow header row with
  | error err => exact ⟨err, rfl⟩
  | ok v =>
      exfalso
      obtain ⟨⟨t, ht⟩, ⟨xv, hx⟩, ⟨yv, hy⟩, ⟨th, hth⟩, ⟨li, hli⟩, ⟨di, hdi⟩⟩ :=
        parseRow_ok_getters header row v hq
      simp only [List.mem_cons, List.not_mem_nil, or_false] at hk
      rcases hk with rfl | rfl | rfl | rfl | rfl | rfl
      · rw [getFloatField_missing header row _ hmem] at ht
        exact absurd ht (by simp)
      · rw [getFloatField_missing header row _ hmem] at hx
        exact absurd hx (by simp)
      · rw [getFloatField_missing header row _ hmem] at hy
        exact absurd hy (by simp)
      · rw [getFloatField_missing header row _ hmem] at hth
        exact absurd hth (by simp)
      · rw [getIntField_missing header row _ hmem] at hli
        exact absurd hli (by simp)
      · rw [getIntField_missing header row _ hmem] at hdi
        exact absurd hdi (by simp)

/-- `read_path_data` never raises `FileNotFoundError`: once the file is
open, every failure is a content failure. -/
theorem read_path_data_ne_notFound (header : List String) (rows : List (List String)) :
    read_path_data header rows ≠ Except.error LoadError.notFound := by
  induction rows with
  | nil => simp [read_path_data]
  | cons r rs ih =>
      intro h
      rw [read_path_data] at h
      cases hp : parseRow header r with
      | error e =>
          rw [hp] at h
          exact parseRow_ne_notFound header r (by rw [hp, Except.error.inj h])
      | ok v =>
          rw [hp] at h
          cases hrec : read_path_data header rs with
          | error e =>
              rw [hrec] at h
              exact ih (by rw [hrec, Except.error.inj h])
          | ok d =>
              rw [hrec] at h
              exact absurd h (by simp)

/-- C3: for every well-formed input file — every data row passes the six
named field accesses and numeric parses — the loader succeeds and returns
six sequences of identical length equal to the number of data rows, each
holding that row's parsed value at the row's index. -/
theorem read_path_data_wellformed (header : List String) (rows : List (List String))
    (h : ∀ r ∈ rows, ∃ v, parseRow header r = Except.ok v) :
    ∃ d, read_path_data header rows = Except.ok d ∧
      d.time.length = rows.length ∧ d.x.length = rows.length ∧
      d.y.length = rows.length ∧ d.theta.length = rows.length ∧
      d.light.length = rows.length ∧ d.distance.length = rows.length ∧
      ∀ i v, i < rows.length → parseRow header (rows.getD i []) = Except.ok v →
        d.time.getD i 0 = v.time ∧ d.x.getD i 0 = v.x ∧ d.y.getD i 0 = v.y ∧
        d.theta.getD i 0 = v.theta ∧ d.light.getD i 0 = v.light ∧
        d.distance.getD i 0 = v.distance := by
  induction rows with
  | nil =>
      refine ⟨⟨[], [], [], [], [], []⟩, rfl, rfl, rfl, rfl, rfl, rfl, rfl, ?_⟩
      intro i v hi
      exact absurd hi (by simp)
  | cons r rs ih =>
      obtain ⟨v, hv⟩ := h r (List.mem_cons_self r rs)
      obtain ⟨d, hd, l1, l2, l3, l4, l5, l6, hord⟩ :=
        ih (fun r2 hr2 => h r2 (List.mem_cons_of_mem r hr2))
      refine ⟨⟨v.time :: d.time, v.x :: d.x, v.y :: d.y, v.theta :: d.theta,
        v.light :: d.light, v.distance :: d.distance⟩, ?_, by simpa using l1,
        by simpa using l2, by simpa using l3, by simpa using l4,
        by simpa using l5, by simpa using l6, ?_⟩
      · rw [read_path_data, hv, hd]
      · intro i w hi hw
        cases i with
        | zero =>
            simp only [List.getD_cons_zero]
            simp only [List.getD_cons_zero] at hw
            rw [hv] at hw
            rw [Except.ok.inj hw]
            exact ⟨rfl, rfl, rfl, rfl, rfl, rfl⟩
        | succ j =>
            simp only [List.getD_cons_succ]
            simp only [List.getD_cons_succ] at hw
            exact hord j w (by simpa using hi) hw

/-- Witness for C3: a two-row well-formed file loads into sequences of
length two holding the parsed row values in row order. -/
theorem read_path_data_wellformed_witness :
    (∀ r ∈ [["0", "0", "0", "0", "50", "10"], ["1000", "3", "4", "0", "50", "10"]],
      ∃ v, parseRow ["Time", "X", "Y", "Theta", "Light", "Dist"] r = Except.ok v) ∧
    ∃ d, read_path_data ["Time", "X", "Y", "Theta", "Light", "Dist"]
        [["0", "0", "0", "0", "50", "10"], ["1000", "3", "4", "0", "50", "10"]] = Except.ok d ∧
      d.time.length = [["0", "0", "0", "0", "50", "10"], ["1000", "3", "4", "0", "50", "10"]].length ∧
      d.x.length = [["0", "0", "0", "0", "50", "10"], ["1000", "3", "4", "0", "50", "10"]].length ∧
      d.y.length = [["0", "0", "0", "0", "50", "10"], ["1000", "3", "4", "0", "50", "10"]].length ∧
      d.theta.length = [["0", "0", "0", "0", "50", "10"], ["1000", "3", "4", "0", "50", "10"]].length ∧
      d.light.length = [["0", "0", "0", "0", "50", "10"], ["1000", "3", "4", "0", "50", "10"]].length ∧
      d.distance.length = [["0", "0", "0", "0", "50", "10"], ["1000", "3", "4", "0", "50", "10"]].length ∧
      ∀ i v, i < [["0", "0", "0", "0", "50", "10"], ["1000", "3", "4", "0", "50", "10"]].length →
        parseRow ["Time", "X", "Y", "Theta", "Light", "Dist"]
          ([["0", "0", "0", "0", "50", "10"], ["1000", "3", "4", "0", "50", "10"]].getD i []) = Except.ok v →
        d.time.getD i 0 = v.time ∧ d.x.getD i 0 = v.x ∧ d.y.getD i 0 = v.y ∧
        d.theta.getD i 0 = v.theta ∧ d.light.getD i 0 = v.light ∧
        d.distance.getD i 0 = v.distance := by
  have hyp : ∀ r ∈ [["0", "0", "0", "0", "50", "10"], ["1000", "3", "4", "0", "50", "10"]],
      ∃ v, parseRow ["Time", "X", "Y", "Theta", "Light", "Dist"] r = Except.ok v := by
    intro r hr
    simp only [List.mem_cons, List.not_mem_nil, or_false] at hr
    rcases hr with rfl | rfl
    · exact ⟨⟨0, 0, 0, 0, 50, 10⟩, by decide⟩
    · exact ⟨⟨1000, 3, 4, 0, 50, 10⟩, by decide⟩
  exact ⟨hyp, read_path_data_wellformed _ _ hyp⟩

/-- C7 counterexample: a file whose header (`Foo`) lacks every required
column but which has zero data rows loads SUCCESSFULLY — the claim that
every file with a missing required column fails to load is false. -/
theorem read_missing_column_headeronly_ok :
    (∃ k ∈ ["Time", "X", "Y", "Theta", "Light", "Dist"], k ∉ ["Foo"]) ∧
    read_path_data ["Foo"] [] = Except.ok ⟨[], [], [], [], [], []⟩ :=
  ⟨⟨"Time", by decide, by decide⟩, rfl⟩

/-- C7 (amended): for every input file with AT LEAST ONE data row whose
header lacks at least one required column, the load fails and returns no
sequences to the caller: the whole load either succeeds completely or
fails. -/
theorem read_fails_missing_column (header r : List String) (rs : List (List String))
    (hmiss : ∃ k ∈ ["Time", "X", "Y", "Theta", "Light", "Dist"], k ∉ header) :
    (∃ e, read_path_data header (r :: rs) = Except.error e) ∧
    ∀ d, read_path_data header (r :: rs) ≠ Except.ok d := by
  obtain ⟨k, hk, hmem⟩ := hmiss
  obtain ⟨e, he⟩ := parseRow_error_of_missing header r k hk hmem
  have hread : read_path_data header (r :: rs) = Except.error e := by
    rw [read_path_data, he]
  refine ⟨⟨e, hread⟩, fun d hd => ?_⟩
  rw [hread] at hd
  exact absurd hd (by simp)

/-- Witness for C7 (amended): a one-row file under the header `Foo` fails
to load and returns no sequences. -/
theorem read_fails_missing_column_witness :
    (∃ k ∈ ["Time", "X", "Y", "Theta", "Light", "Dist"], k ∉ ["Foo"]) ∧
    ((∃ e, read_path_data ["Foo"] [["1"]] = Except.error e) ∧
     ∀ d, read_path_data ["Foo"] [["1"]] ≠ Except.ok d) :=
  ⟨⟨"Time", by decide, by decide⟩,
   read_fails_missing_column ["Foo"] ["1"] [] ⟨"Time", by decide, by decide⟩⟩

/-- C9: a nonexistent input path surfaces as the `NotFound` condition,
which no malformed-content load can produce (so the two are
distinguishable), and at the top level the `NotFound` case yields the
dedicated user-facing message as a normal (caught, non-propagating)
outcome of `main`. -/
theorem notFound_distinguishable (fs : String → Option CsvFile) (filename : String)
    (hmiss : fs filename = none) :
    loadPathData fs filename = Except.error LoadError.notFound ∧
    mainOutcome fs filename = MainOutcome.fileNotFound (notFoundMessage filename) ∧
    ∀ (fs2 : String → Option CsvFile) (name2 : String) (f : CsvFile),
      fs2 name2 = some f → loadPathData fs2 name2 ≠ Except.error LoadError.notFound := by
  have hload : loadPathData fs filename = Except.error LoadError.notFound := by
    rw [loadPathData, hmiss]
  refine ⟨hload, ?_, ?_⟩
  · rw [mainOutcome, hload]
  · intro fs2 name2 f hf
    rw [loadPathData, hf]
    exact read_path_data_ne_notFound f.header f.rows

/-- Witness for C9: on the empty filesystem, loading `path.txt` is the
`NotFound` condition and `main` ends in the dedicated message branch. -/
theorem notFound_distinguishable_witness :
    loadPathData (fun _ => none) "path.txt" = Except.error LoadError.notFound ∧
    mainOutcome (fun _ => none) "path.txt" =
      MainOutcome.fileNotFound (notFoundMessage "path.txt") ∧
    ∀ (fs2 : String → Option CsvFile) (name2 : String) (f : CsvFile),
      fs2 name2 = some f → loadPathData fs2 name2 ≠ Except.error LoadError.notFound :=
  notFound_distinguishable (fun _ => none) "path.txt" rfl

/-! ### Path-length reversal (claim C6) -/

/-- `np.diff` of an n-element array has n-1 elements. -/
theorem npDiff_length (l : List ℝ) : (npDiff l).length = l.length - 1 := by
  induction l with
  | nil => rfl
  | cons a t ih =>
      cases t with
      | nil => rfl
      | cons b t2 =>
          rw [npDiff]
          simp only [List.length_cons] at ih ⊢
          omega

/-- Appending an element to a nonempty list appends its difference with
the previous last element to the difference array. -/
theorem npDiff_concat (l : List ℝ) (a : ℝ) (h : l ≠ []) :
    npDiff (l ++ [a]) = npDiff l ++ [a - l.getLastD 0] := by
  induction l with
  | nil => exact absurd rfl h
  | cons x t ih =>
      cases t with
      | nil => rfl
      | cons y t2 =>
          rw [List.cons_append, List.cons_append]
          rw [npDiff]
          rw [← List.cons_append, ih (by simp)]
          rw [npDiff, List.cons_append]
          rfl

/-- The last element of a reversed list is its head. -/
theorem getLastD_reverse_headD (l : List ℝ) (d : ℝ) :
    l.reverse.getLastD d = l.headD d := by
  cases l with
  | nil => rfl
  | cons a t =>
      rw [List.reverse_cons, List.getLastD_concat]
      rfl

/-- Reversing the samples reverses and negates the difference array. -/
theorem npDiff_reverse (l : List ℝ) :
    npDiff l.reverse = ((npDiff l).map (fun t => -t)).reverse := by
  induction l with
  | nil => rfl
  | cons a t ih =>
      cases t with
      | nil => rfl
      | cons b t2 =>
          rw [List.reverse_cons]
          rw [npDiff_concat _ a (by simp)]
          rw [ih, getLastD_reverse_headD]
          show _ = (((b - a) :: npDiff (b :: t2)).map (fun t => -t)).reverse
          rw [List.map_cons, List.reverse_cons]
          congr 1
          show [a - b] = [-(b - a)]
          norm_num

/-- C6: the derived path length (sum of consecutive Euclidean
displacements in x/y) is invariant under reversal of the sample order:
computed on the reversed x and y sequences of a telemetry series (whose
x and y have equal length) it yields the same value. -/
theorem total_distance_reverse (x y : List ℝ) (h : x.length = y.length) :
    total_distance x.reverse y.reverse = total_distance x y := by
  rw [total_distance, total_distance, segmentLengths, segmentLengths]
  rw [npDiff_reverse x, npDiff_reverse y]
  have hlen : ((npDiff x).map (fun t => -t)).length = ((npDiff y).map (fun t => -t)).length := by
    simp [npDiff_length, h]
  rw [← List.reverse_zipWith hlen, List.sum_reverse]
  rw [List.zipWith_map]
  have hfun : (fun (a b : ℝ) => Real.sqrt ((-a) ^ 2 + (-b) ^ 2)) =
      (fun dx dy => Real.sqrt (dx ^ 2 + dy ^ 2)) := by
    funext dx dy
    rw [neg_sq, neg_sq]
  rw [hfun]

/-- Witness for C6: the round-trip series traversed backwards has the
same path length as traversed forwards. -/
theorem total_distance_reverse_witness :
    ([0, 3, 3] : List ℝ).length = ([0, 4, 4] : List ℝ).length ∧
    total_distance ([0, 3, 3] : List ℝ).reverse ([0, 4, 4] : List ℝ).reverse =
      total_distance [0, 3, 3] [0, 4, 4] :=
  ⟨rfl, total_distance_reverse [0, 3, 3] [0, 4, 4] rfl⟩

end RobotPath
